import Mathlib

/-!
Verification of the natural-language specification of the
skills-profile-chat repository (a natural-language-to-SQL service)
against a shallow embedding of its Python source.

Strings are modelled as `List Char`; Python text operations
(`str.strip`, `str.split`, `str.lower`, `str.startswith`,
`str.replace`, `", ".join`) are embedded as executable functions on
`List Char` mirroring CPython semantics on the inputs the code uses.
-/

set_option maxRecDepth 100000

namespace SkillsChat

/-- Whitespace stripped by Python `str.strip()` (ASCII part: space, tab,
newline, carriage return, vertical tab, form feed). -/
def isPySpace (c : Char) : Bool :=
  c == ' ' || c == '\t' || c == '\n' || c == '\r' || c == '\x0b' || c == '\x0c'

/-- Python `str.strip()`: drop leading and trailing whitespace. -/
def pyStrip (s : List Char) : List Char :=
  ((s.dropWhile isPySpace).reverse.dropWhile isPySpace).reverse

/-- Python `str.lower()` (ASCII letters; the source only tests ASCII keywords). -/
def pyLower (s : List Char) : List Char := s.map Char.toLower

/-- Python `str.upper()` (ASCII letters; the source only tests ASCII keywords). -/
def pyUpper (s : List Char) : List Char := s.map Char.toUpper

/-- Python `s.startswith(p)`: `p` is an initial segment of `s`. -/
def pyStartsWith : List Char → List Char → Bool
  | [], _ => true
  | _ :: _, [] => false
  | p :: ps, c :: cs => p == c && pyStartsWith ps cs

/-- Python `pat in s`: `pat` occurs as a contiguous substring of `s`. -/
def containsSub (pat : List Char) : List Char → Bool
  | [] => pyStartsWith pat []
  | c :: rest => if pyStartsWith pat (c :: rest) then true else containsSub pat rest

/-- Prepend a character to the first segment of a split result
(used to build Python `str.split` left to right). -/
def consHead (c : Char) : List (List Char) → List (List Char)
  | [] => [[c]]
  | seg :: segs => (c :: seg) :: segs

/-- The opening-fence marker searched by `clean_sql_query`. -/
def fenceSql : List Char := "```sql".data

/-- The closing-fence marker searched by `clean_sql_query`. -/
def fenceMark : List Char := "```".data

/-- Python `s.split("```sql")`: non-overlapping, leftmost-first split on the
six-character separator (the six-fold cons skips the matched separator). -/
def splitFenceSql : List Char → List (List Char)
  | [] => [[]]
  | c :: rest =>
    if pyStartsWith fenceSql (c :: rest) then
      match rest with
      | _ :: _ :: _ :: _ :: _ :: rest2 => [] :: splitFenceSql rest2
      | _ => [[]]
    else consHead c (splitFenceSql rest)

/-- Python `s.split("```")`: non-overlapping, leftmost-first split on the
three-character separator. -/
def splitFence : List Char → List (List Char)
  | [] => [[]]
  | c :: rest =>
    if pyStartsWith fenceMark (c :: rest) then
      match rest with
      | _ :: _ :: rest2 => [] :: splitFence rest2
      | _ => [[]]
    else consHead c (splitFence rest)

/-- Python `s.split("\n")`. -/
def splitNl : List Char → List (List Char)
  | [] => [[]]
  | c :: rest => if c == '\n' then [] :: splitNl rest else consHead c (splitNl rest)

/-- Fence extraction step of `clean_sql_query` (sql_query_generator.py:502-503):
`if "```sql" in generated_text: generated_text =
generated_text.split("```sql")[1].split("```")[0]`.  The `[1]` index is
guarded by the `in` check, so the `getD` defaults are never taken. -/
def extractFenced (generated_text : List Char) : List Char :=
  if containsSub fenceSql generated_text then
    (splitFence ((splitFenceSql generated_text).getD 1 [])).getD 0 []
  else generated_text

/-- Filler test of `clean_sql_query` (sql_query_generator.py:510-512):
`line.lower().startswith(("here", "the", "this", "note:", "explanation:"))`. -/
def fillerStart (line : List Char) : Bool :=
  pyStartsWith ("here".data) (pyLower line) ||
  pyStartsWith ("the".data) (pyLower line) ||
  pyStartsWith ("this".data) (pyLower line) ||
  pyStartsWith ("note:".data) (pyLower line) ||
  pyStartsWith ("explanation:".data) (pyLower line)

/-- Per-line body of the `for line in lines` loop of `clean_sql_query`
(sql_query_generator.py:508-515): strip the line; keep it only when it is
nonempty and not filler; strip a leading `sql:` label (`line[4:].strip()`). -/
def keepLine (raw : List Char) : Option (List Char) :=
  let line := pyStrip raw
  if !line.isEmpty && !fillerStart line then
    if pyStartsWith ("sql:".data) (pyLower line) then some (pyStrip (line.drop 4))
    else some line
  else none

/-- Python `s.replace(";", "")`: remove every semicolon character. -/
def removeSemis (s : List Char) : List Char := s.filter (fun c => !(c == ';'))

/-- Embedding of `" ".join(sql_lines).replace(";", "").strip()` applied to the kept lines
(sql_query_generator.py:517). -/
def processLines (lines : List (List Char)) : List Char :=
  pyStrip (removeSemis (List.intercalate (" ".data) (lines.filterMap keepLine)))

/-- The whole line-cleaning pipeline of `clean_sql_query` after fence
extraction: `generated_text.strip().split("\n")`, the keep loop, join,
semicolon removal, strip. -/
def joinCleanLines (t : List Char) : List Char :=
  processLines (splitNl (pyStrip t))

/-- Message of the `ValueError` raised by `clean_sql_query`
(sql_query_generator.py:520). -/
def selectErrMsg : List Char := "Generated output is not a valid SELECT statement".data

/-- Embedding of `SQLQueryGenerator.clean_sql_query` (sql_query_generator.py:500-522):
extract the fenced block if present, clean the lines, and fail with
`ValueError` unless the upper-cased result starts with `SELECT`. -/
def clean_sql_query (generated_text : List Char) : Except (List Char) (List Char) :=
  let sql_query := joinCleanLines (extractFenced generated_text)
  if pyStartsWith ("SELECT".data) (pyUpper sql_query) then Except.ok sql_query
  else Except.error selectErrMsg

/-- The backtick character (kept out of character literals). -/
def bq : Char := Char.ofNat 96

/-- The apostrophe character, kept out of string literals. -/
def sq : String := (Char.ofNat 39).toString

/-- Body of `promptRole` (all but its last 38 characters). -/
def promptRole_main : String := "\nYou are an expert DB2 SQL developer generating production-ready SQL.\nUse ONLY the provided database sche"

/-- Window of `promptRole` (its last 38 characters). -/
def promptRole_win : String := "ma.\nDo NOT invent tables or columns.\n\n"

/-- System prompt: role/persona instruction (start of the f-string, sql_query_generator.py:570-573). -/
def promptRole : String := promptRole_main ++ promptRole_win

/-- Body of `promptNarrative_c0` (all but its last 38 characters). -/
def promptNarrative_c0_main : String := "==============================\nAPPLICATION FLOW & USE CASE\n==============================\n\nThis system is a Talent Expertise & Contribution Management platform.\n\nTypical workflow:\n1. User Login\n   - User logs in using corporate identity.\n   - User record exists in `users` table.\n\n2. User Contributions\n   Users can submit:\n   - Product expertise\n   - Product assets\n   - Knowledge sharing content\n\n   These are stored in:\n   - user_product_expertise\n   - user_product_assets\n   - user_product_knowledge_sharing\n\n3. Submission Process\n   User submissions go through approval workflow:\n   users -> submissions -> submission_items -> approvals\n\n   Flow:\n   - User submits contributions.\n   - A submission record is created.\n   - Submission items track each change.\n   - Manager reviews submission.\n   - Manager approves or rejects.\n   - Approval stored in approvals table.\n   - Submission status updated.\n\n4. Manager Role\n   Managers:\n   - Are marked using users.is_manager = TRUE\n   - Manage reportees via users.manager_user_id\n   - Review and approve submissions\n   - Provide feedback.\n\n5. Reportee Relationship\n   Users report to managers using:\n   users.manager_user_id → users.user_id\n\n   A manager" ++ sq ++ "s team members are users whose:\n   manager_user_id = manager.user_id\n\n6. Approval Meaning\n   An item is approved when:\n   - approval_status = " ++ sq ++ "APPROVED" ++ sq ++ "\n   OR\n   - approved_by IS NOT NULL\n\n7. Active Records\n   Always filter:\n   is_active = TRUE\n   when applicable.\n\n8. Expertise Types\n   Expertise includes:\n   - assessment_level (L1–L4)\n   - expertise roles (implement, design, advise, perform)\n   - certifications\n   - project counts\n   - primary expertise flag\n\n9. Assets Contribution Metrics\n   Assets may include:\n   - number of users\n   - projects count\n   - time saved\n\n10. Knowledge Sharing Metrics\n    Knowledge includes:\n    - views\n    - engagement\n    - reach\n    - platform type\n\n==============================\nCOMMON ANALYTICAL QUESTIONS\n==============================\n\nUsers may ask for:\n• Their expertise details\n• Approved contributions\n• Pending approvals\n• Submission history\n• Contribution metrics\n• Asset usage statistics\n• Knowledge sharing impact\n• Managers and their teams\n• Number of reportees under manager\n• Details of reportees\n• Reportees expertise and certifications\n• Manager" ++ sq ++ "s name for a user\n• Users reporting to a specific manager\n• Managers pending approvals\n• Contribution status tracking\n• Approval analytics\n• Top contribu"

/-- Window of `promptNarrative_c0` (its last 38 characters). -/
def promptNarrative_c0_win : String := "tors\n• Users without contributions\n• E"

/-- Segment 0 of `promptNarrative`. -/
def promptNarrative_c0 : String := promptNarrative_c0_main ++ promptNarrative_c0_win

/-- Body of `promptNarrative_c1` (all but its last 38 characters). -/
def promptNarrative_c1_main : String := "xpertise per product\n• Certified users\n• Primary expertise holders\n• Submission rejection reasons\n• Notifications\n• Approval timelines\n• PJRS-based product recommen"

/-- Window of `promptNarrative_c1` (its last 38 characters). -/
def promptNarrative_c1_win : String := "dations\n• Team collaboration metrics\n\n"

/-- Segment 1 of `promptNarrative`. -/
def promptNarrative_c1 : String := promptNarrative_c1_main ++ promptNarrative_c1_win

/-- System prompt: domain/workflow narrative and common analytical questions. -/
def promptNarrative : String := promptNarrative_c0 ++ promptNarrative_c1

/-- Body of `promptRules_c0` (all but its last 38 characters). -/
def promptRules_c0_main : String := "==============================\nQUERY RULES\n==============================\n\nGENERAL RULES\n--------------\n- Use ONLY tables listed in schema.\n- Use JOINs properly.\n- Prefer users table for person data.\n- Always filter active records when relevant.\n- Use DB2 syntax.\n- Use FETCH FIRST N ROWS ONLY for limits.\n- Do not generate UPDATE/DELETE.\n- Return only executable SELECT SQL.\n- No explanations.\n\nMANAGER RULES\n--------------\n- Manager status must use users.is_manager column.\n- Do NOT infer manager from role text.\n- Manager-reportee relationship:\n  reportee.manager_user_id = manager.user_id\n- If manager is referenced by talent_id:\n  match using users.talent_id.\n- To get a user" ++ sq ++ "s manager:\n  JOIN users m ON u.manager_user_id = m.user_id\n- To get manager details use: m.user_name, m.email, m.talent_id\n\nSTRICT MANAGER-REPORTEE JOIN RULE (CRITICAL)\n----------------------------------------------\nAlias usage MUST follow this rule:\n\nEmployee/User alias: u\nManager alias: m\nReportee alias: r\n\nTo fetch manager of a user:\n    users u = employee\n    users m = manager\n\nJoin MUST be:\n    u.manager_user_id = m.user_id\n\nCorrect pattern:\nFROM users u\nLEFT JOIN users m\n    ON u.manager_user_id = m.user_id\n\nu = employee\nm = manager\n\nNEVER reverse aliases.\n\nWrong pattern (FORBIDDEN):\nFROM users m\nJOIN users u ON u.manager_user_id = m.user_id\n\nWhen returning columns:\n- Manager name must come from alias m\n- Employee name must come from alias u\n\nExample correct:\nSELECT\n    u.user_name AS employee_name,\n    m.user_name AS manager_name\n\n\nREPORTEE RULES\n--------------\n- Reportees are users where:\n  users.manager_user_id = <manager" ++ sq ++ "s user_id>\n- To list all reportees for a manager:\n  WHERE users.manager_user_id = <manager_user_id>\n- To get reportee expertise:\n  JOIN user_product_expertise ON users.user_id = upe.user_id\n- To get reportee certifications:\n  WHERE upe.has_certification = TRUE\n\nUSER SEARCH RULES\n-----------------\nUsers may provide partial names.\nAlways use partial matching:\nLOWER(user_name) LIKE LOWER(" ++ sq ++ "%value%" ++ sq ++ ")\n\nNever use exact match unless ID provided.\nApply same logic for:\n- product names\n- asset names\n- titles\n\nSUBMISSION RULES\n-----------------\nSubmission workflow involves:\nusers -> submissions -> submission_items\n\nWhen querying submissions:\n- Join submissions with users.\n- submission_items contains item-level details.\n- approvals relate to submission approval.\n\nApproved items mean:\napproval_status = " ++ sq ++ "APPROVED" ++ sq ++ "\nOR approved_by IS NOT NUL"

/-- Window of `promptRules_c0` (its last 38 characters). -/
def promptRules_c0_win : String := "L.\n\nSTATUS COMPARISON RULE\n-----------"

/-- Segment 0 of `promptRules`. -/
def promptRules_c0 : String := promptRules_c0_main ++ promptRules_c0_win

/-- Body of `promptRules_c1` (all but its last 38 characters). -/
def promptRules_c1_main : String := "-----------\nSubmission and approval statuses may appear in mixed case.\n\nAlways compare statuses using:\n\nUPPER(column) LIKE UPPER(" ++ sq ++ "%VALUE%" ++ sq ++ ")\n\nNever use:\ncolumn = " ++ sq ++ "VALUE" ++ sq ++ "\n\nStatuses include:\n• APPROVED\n• REJECTED\n• PENDING\n• PARTIAL\n• PARTIALLY_APPROVED\n• PENDING_REVIEW\n\nSTRICT Pending submissions include statuses:\npending, pending_review\nApproved submissions include:\napproved\nPartially approved submissions include:\npartially_approved\nRejected submissions include:\nrejected\n\nExamples:\nUPPER(s.submission_status) LIKE UPPER(" ++ sq ++ "%PENDING%" ++ sq ++ ")\nUPPER(si.approval_status) LIKE UPPER(" ++ sq ++ "%APPROVED%" ++ sq ++ ")\n\n\nCOUNT VS LIST RULE\n------------------\nIf question asks:\n• \"how many\"\n• \"count\"\n• \"number of\"\nThen return ONLY:\nSELECT COUNT(...)\n\nDo NOT include columns.\n\nIf question asks:\n• \"list\"\n• \"show\"\n• \"display\"\nReturn rows WITHOUT aggregation.\n\nIf both appear:\nReturn list rows only.\n\nGROUP BY RULE\n-------------\nWhen using COUNT or aggregates:\nAll non-aggregated columns MUST appear in GROUP BY.\nAvoid mixing aggregates with columns unless grouped.\n\nTEXT COMPARISON RULE (STRICT)\n------------------------------\nFor ALL user-provided text filters:\n\nALWAYS use partial matching:\nLOWER(column) LIKE LOWER(" ++ sq ++ "%value%" ++ sq ++ ")\n\nNEVER use equality (=) for text fields.\n\nThis rule applies to:\n- user_name\n- product_name\n- titles\n- asset names\n- PJRS\n- email\n- content titles\n- categories\n- or ANY text search field.\n\nEquality (=) is allowed ONLY for:\n- numeric IDs\n- boolean fields\n- foreign keys\nNever use strict equality for names.\n\nDISTINCT RULE\n--------------\nUse DISTINCT when joins may produce duplicates.\n\nACTIVE RECORD RULE\n------------------\nAlways filter:\nis_active = TRUE\nwhen column exists.\n\nCERTIFICATION RULE\n------------------\nTo find users with certifications:\n- user_product_expertise.has_certification = TRUE\n- certification_url will contain the certificate link\n\nEXPERTISE DETAIL RULE\n---------------------\nWhen asking for full expertise details include:\n- assessment_level\n- expertise_implement, expertise_advise, expertise_design, expertise_perform\n- has_certification, certificat"

/-- Window of `promptRules_c1` (its last 38 characters). -/
def promptRules_c1_win : String := "ion_url\n- is_primary\n- project_count\n\n"

/-- Segment 1 of `promptRules`. -/
def promptRules_c1 : String := promptRules_c1_main ++ promptRules_c1_win

/-- System prompt: enumerated query rule sections, up to the context-block substitution. -/
def promptRules : String := promptRules_c0 ++ promptRules_c1

/-- Body of `promptSchemaHdr` (all but its last 38 characters). -/
def promptSchemaHdr_main : String := "\n\n==============================\nDATABASE S"

/-- Window of `promptSchemaHdr` (its last 38 characters). -/
def promptSchemaHdr_win : String := "CHEMA\n==============================\n\n"

/-- System prompt: DATABASE SCHEMA heading between context block and schema text. -/
def promptSchemaHdr : String := promptSchemaHdr_main ++ promptSchemaHdr_win

/-- Body of `TABLE_SCHEMAS_c0` (all but its last 38 characters). -/
def TABLE_SCHEMAS_c0_main : String := "\nTABLE: users\n- user_id INTEGER PRIMARY KEY (unique user ID, auto-increment)\n- talent_id VARCHAR(20) UNIQUE NOT NULL (external IBM talent ID)\n- w3_id VARCHAR(50) UNIQUE NOT NULL (IBM W3 ID)\n- user_name VARCHAR(200) NOT NULL (full name of the user)\n- email VARCHAR(255) UNIQUE NOT NULL (email address)\n- profile_picture_url VARCHAR(500) (URL to profile picture)\n- job_role VARCHAR(200) (job role/title)\n- pjrs VARCHAR(255) (PJRS code - project/practice area)\n- user_role VARCHAR(10) DEFAULT " ++ sq ++ "DC" ++ sq ++ " (role: DC, Manager, Admin)\n- manager_talent_id VARCHAR(20) (manager" ++ sq ++ "s talent ID)\n- manager_user_id INTEGER (FK to users.user_id - manager reference)\n- is_manager BOOLEAN DEFAULT FALSE (whether user is a manager)\n- is_active BOOLEAN DEFAULT TRUE (account active status)\n- created_at TIMESTAMP (record creation timestamp)\n- updated_at TIMESTAMP (record update timestamp)\n\nTABLE: products\n- product_id INTEGER PRIMARY KEY (unique product ID, auto-increment)\n- product_name VARCHAR(200) UNIQUE NOT NULL (product name)\n- product_icon VARCHAR(100) UNIQUE NOT NULL (product icon identifier)\n- category VARCHAR(100) NOT NULL (product category)\n- subcategory VARCHAR(100) (product subcategory)\n- product_description VARCHAR(1000) (product description)\n- vendor VARCHAR(50) DEFAULT " ++ sq ++ "IBM" ++ sq ++ " (product vendor)\n- is_active BOOLEAN DEFAULT TRUE (product active status)\n- created_at TIMESTAMP (record creation timestamp)\n- updated_at TIMESTAMP (record update timestamp)\n\nTABLE: user_product_expertise\n- expertise_id INTEGER PRIMARY KEY (unique expertise record ID, auto-increment)\n- user_id INTEGER NOT NULL (FK to users.user_id)\n- product_id SMALLINT NOT NULL (FK to products.product_id)\n- assessment_level CHAR(2) (expertise assessment level: L1, L2, L3, L4)\n- expertise_implement BOOLEAN DEFAULT FALSE (can implement)\n- expertise_advise BOOLEAN DEFAULT FALSE (can advise)\n- expertise_design BOOLEAN DEFAULT FALSE (can design)\n- expertise_perform BOOLEAN DEFAULT FALSE (can perform)\n- project_count SMALLINT (number of projects with this product)\n- has_certification BOOLEAN DEFAULT FALSE (has certification for product)\n- certification_url VARCHAR(500) (URL to certification)\n- is_primary BOOLEAN DEFAULT FALSE NOT NULL (is this primary expertise)\n- record_version SMALLINT (version number for tracking changes)\n- approved_by INTEGER (FK to users.user_id - approver)\n- approved_at TIMESTAMP (approval timestamp)\n- is_active BOOLEAN DEFAULT TRUE (record active status)\n- created_at T"

/-- Window of `TABLE_SCHEMAS_c0` (its last 38 characters). -/
def TABLE_SCHEMAS_c0_win : String := "IMESTAMP (record creation timestamp)\n-"

/-- Segment 0 of `TABLE_SCHEMAS`. -/
def TABLE_SCHEMAS_c0 : String := TABLE_SCHEMAS_c0_main ++ TABLE_SCHEMAS_c0_win

/-- Body of `TABLE_SCHEMAS_c1` (all but its last 38 characters). -/
def TABLE_SCHEMAS_c1_main : String := " updated_at TIMESTAMP (record update timestamp)\n\nTABLE: user_product_assets\n- asset_id INTEGER PRIMARY KEY (unique asset ID, auto-increment)\n- user_id INTEGER NOT NULL (FK to users.user_id - asset owner)\n- product_id SMALLINT NOT NULL (FK to products.product_id)\n- asset_name VARCHAR(200) NOT NULL (name/title of the asset)\n- asset_description VARCHAR(1000) NOT NULL (detailed description)\n- repository_url VARCHAR(500) NOT NULL (URL to asset repository)\n- platform_type VARCHAR(50) NOT NULL (platform: GitHub, GitLab, etc.)\n- url_validated BOOLEAN DEFAULT FALSE (URL validation status)\n- users_count SMALLINT (number of users using this asset)\n- projects_count SMALLINT (number of projects using this asset)\n- time_saved_hours SMALLINT (estimated time saved in hours)\n- approval_status VARCHAR(20) (status: PENDING, APPROVED, REJECTED)\n- manager_feedback VARCHAR(2000) (manager" ++ sq ++ "s feedback)\n- approved_by INTEGER (FK to users.user_id - approver)\n- approved_at TIMESTAMP (approval timestamp)\n- record_version SMALLINT (version number)\n- is_active BOOLEAN DEFAULT TRUE (record active status)\n- created_at TIMESTAMP (record creation timestamp)\n- updated_at TIMESTAMP (record update timestamp)\n\nTABLE: user_product_knowledge_sharing\n- knowledge_id INTEGER PRIMARY KEY (unique knowledge sharing record ID, auto-increment)\n- user_id INTEGER NOT NULL (FK to users.user_id)\n- product_id SMALLINT NOT NULL (FK to products.product_id)\n- content_title VARCHAR(300) NOT NULL (title of shared content)\n- content_type VARCHAR(50) NOT NULL (type: Blog, Video, Tutorial, etc.)\n- content_url VARCHAR(500) NOT NULL (URL to content)\n- platform_type VARCHAR(50) NOT NULL (platform: Medium, YouTube, etc.)\n- url_validated BOOLEAN DEFAULT FALSE (URL validation status)\n- views_count INTEGER (number of views)\n- engagement_count INTEGER (engagement metrics)\n- reach_count INTEGER (reach metrics)\n- approval_status VARCHAR(20) (status: PENDING, APPROVED, REJECTED)\n- manager_feedback VARCHAR(2000) (manager" ++ sq ++ "s feedback)\n- approved_by INTEGER (FK to users.user_id - approver)\n- approved_at TIMESTAMP (approval timestamp)\n- record_version SMALLINT (version number)\n- is_active BOOLEAN DEFAULT TRUE (record active status)\n- created_at TIMESTAMP (record creation timestamp)\n- updated_at TIMESTAMP (record update timestamp)\n\nTABLE: submissions\n- submission_id INTEGER PRIMARY KEY (unique submission ID, auto-increment)\n- user_id INTEGER NOT NULL (FK to users.user_id - submitter)\n- manager_id"

/-- Window of `TABLE_SCHEMAS_c1` (its last 38 characters). -/
def TABLE_SCHEMAS_c1_win : String := " INTEGER NOT NULL (FK to users.user_id"

/-- Segment 1 of `TABLE_SCHEMAS`. -/
def TABLE_SCHEMAS_c1 : String := TABLE_SCHEMAS_c1_main ++ TABLE_SCHEMAS_c1_win

/-- Body of `TABLE_SCHEMAS_c2` (all but its last 38 characters). -/
def TABLE_SCHEMAS_c2_main : String := " - reviewing manager)\n- submission_type VARCHAR(20) NOT NULL (type: EXPERTISE, ASSETS, KNOWLEDGE)\n- submission_status VARCHAR(20) DEFAULT " ++ sq ++ "PENDING" ++ sq ++ " (status: PENDING, APPROVED, REJECTED, PARTIAL)\n- total_items SMALLINT (total number of items in submission)\n- submitted_at TIMESTAMP (submission timestamp)\n- reviewed_at TIMESTAMP (review timestamp)\n- manager_feedback VARCHAR(2000) (overall manager feedback)\n- rejection_reason VARCHAR(500) (reason for rejection)\n- is_active BOOLEAN DEFAULT TRUE (record active status)\n- created_at TIMESTAMP (record creation timestamp)\n- updated_at TIMESTAMP (record update timestamp)\n\nTABLE: submission_items\n- item_id INTEGER PRIMARY KEY (unique item ID, auto-increment)\n- submission_id INTEGER NOT NULL (FK to submissions.submission_id)\n- item_type VARCHAR(20) NOT NULL (type: EXPERTISE, ASSET, KNOWLEDGE)\n- entity_id INTEGER NOT NULL (ID of the actual entity being submitted)\n- product_id SMALLINT NOT NULL (FK to products.product_id)\n- change_type VARCHAR(10) NOT NULL (type: CREATE, UPDATE, DELETE)\n- prev_value TEXT (previous value as JSON/text - CLOB in DB2)\n- new_value TEXT (new value as JSON/text - CLOB in DB2)\n- approval_status VARCHAR(20) DEFAULT " ++ sq ++ "PENDING" ++ sq ++ " (status: PENDING, APPROVED, REJECTED)\n- rejection_reason VARCHAR(500) (reason for rejection)\n- reviewed_by INTEGER (FK to users.user_id - reviewer)\n- reviewed_at TIMESTAMP (review timestamp)\n- created_at TIMESTAMP (record creation timestamp)\n- updated_at TIMESTAMP (record update timestamp)\n\nTABLE: approvals\n- approval_id INTEGER PRIMARY KEY (unique approval ID, auto-increment)\n- submission_id INTEGER NOT NULL (FK to submissions.submission_id)\n- manager_id INTEGER NOT NULL (FK to users.user_id - approving manager)\n- decision VARCHAR(10) NOT NULL (decision: APPROVED, REJECTED)\n- rejection_reason VARCHAR(2000) (reason for rejection)\n- approval_feedback VARCHAR(2000) (approval feedback/comments)\n- created_at TIMESTAMP (approval timestamp)\n\nTABLE: notifications\n- notification_id INTEGER PRIMARY KEY (unique notification ID, auto-increment)\n- user_id INTEGER NOT NULL (FK to users.user_id - recipient)\n- notification_type VARCHAR(50) NOT NULL (type: SUBMISSION, APPROVAL, REJECTION, etc.)\n- notification_title VARCHAR(200) NOT NULL (notification title)\n- notification_message VARCHAR(1000) NOT NULL (notification message)\n- related_submission_id INTEGER (FK to submissions.submission_id - related submission)\n- is_read BOOLEAN DEFAULT FALSE (read status"

/-- Window of `TABLE_SCHEMAS_c2` (its last 38 characters). -/
def TABLE_SCHEMAS_c2_win : String := ")\n- read_at TIMESTAMP (timestamp when "

/-- Segment 2 of `TABLE_SCHEMAS`. -/
def TABLE_SCHEMAS_c2 : String := TABLE_SCHEMAS_c2_main ++ TABLE_SCHEMAS_c2_win

/-- Body of `TABLE_SCHEMAS_c3` (all but its last 38 characters). -/
def TABLE_SCHEMAS_c3_main : String := "notification was read)\n- created_at TIMESTAMP (notification creation timestamp)\n\nTABLE: pjrs_product_mapping\n- mapping_id INTEGER PRIMARY KEY (unique mapping ID, auto-increment)\n- pjrs VARCHAR(255) NOT NULL (PJRS code)\n- product_id SMALLINT NOT NULL (FK to products.product_id)\n- display_order SMALLINT DEFAULT 0 (display order for UI)\n- is_active BOOLEAN DEFAULT TRUE (mapping active status)\n- created_at TIMESTAMP (record creation timestamp)\n- updated_at TIMESTAMP (record update timestamp)\n\nTABLE: url_whitelist\n- whitelist_id SMALLINT PRIMARY KEY (unique whitelist ID, auto-increment)\n- platform_name VARCHAR(100) NOT NULL (name of platform)\n- domain_pattern VARCHAR(200) NOT NULL (domain pattern for validation)\n- platform_type VARCHAR(20) NOT NULL (type: internal, external)\n- url_type VARCHAR(50) NOT NULL (type: certification, repository, knowledge, all)\n- is_active BOOLEAN DEFAULT TRUE (whitelist active status)\n- created_at TIMESTAMP (record creation timestamp)\n- updated_at TIMESTAMP (record update timestamp)\n\nTABLE: error_log\n- error_id BIGINT PRIMARY KEY (unique error ID, auto-increment)\n- user_id INTEGER (FK to users.user_id)\n- error_type VARCHAR(50) NOT NULL (type of error)\n- error_code VARCHAR(50) (error code)\n- error_message VARCHAR(2000) NOT NULL (error message)\n- error_details TEXT (detailed error information - CLOB in DB2)\n- request_url VARCHAR(500) (URL where error occurred)\n- http_method VARCHAR(10) (HTTP method used)\n- ip_address VARCHAR(45) (IP address of requester)\n- user_agent VARCHAR(500) (user agent string)\n- c"

/-- Window of `TABLE_SCHEMAS_c3` (its last 38 characters). -/
def TABLE_SCHEMAS_c3_win : String := "reated_at TIMESTAMP (error timestamp)\n"

/-- Segment 3 of `TABLE_SCHEMAS`. -/
def TABLE_SCHEMAS_c3 : String := TABLE_SCHEMAS_c3_main ++ TABLE_SCHEMAS_c3_win

/-- Schema catalog text, transcribed verbatim from `TABLE_SCHEMAS` (sql_query_generator.py:25-199). -/
def TABLE_SCHEMAS : String := TABLE_SCHEMAS_c0 ++ TABLE_SCHEMAS_c1 ++ TABLE_SCHEMAS_c2 ++ TABLE_SCHEMAS_c3

/-- Body of `promptExamplesHdr` (all but its last 38 characters). -/
def promptExamplesHdr_main : String := "\n\n==============================\nEXAMPLE QU"

/-- Window of `promptExamplesHdr` (its last 38 characters). -/
def promptExamplesHdr_win : String := "ERIES\n==============================\n\n"

/-- System prompt: EXAMPLE QUERIES heading between schema text and example bank. -/
def promptExamplesHdr : String := promptExamplesHdr_main ++ promptExamplesHdr_win

/-- Body of `SAMPLE_QUERIES_c0` (all but its last 38 characters). -/
def SAMPLE_QUERIES_c0_main : String := "\n==============================\nMANAGER & REPORTEE QUERIES\n==============================\n\nExample 1:\nQuery: \"Get manager name for user John Doe\"\nSQL: SELECT u.user_name AS employee_name,\n       m.user_name AS manager_name\nFROM users u\nLEFT JOIN users m\n    ON u.manager_user_id = m.user_id\nWHERE LOWER(u.user_name) LIKE LOWER(" ++ sq ++ "%John Doe%" ++ sq ++ ")\nAND u.is_active = TRUE;\n\n\nExample 2:\nQuery: \"List all reportees for manager with talent_id T12345\"\nSQL: SELECT u.user_id, u.user_name, u.email, u.job_role, u.talent_id\nFROM users u\nJOIN users m ON u.manager_user_id = m.user_id\nWHERE m.talent_id = " ++ sq ++ "T12345" ++ sq ++ "\nAND u.is_active = TRUE\nORDER BY u.user_name;\n\nExample 3:\nQuery: \"Show manager" ++ sq ++ "s name and email for user_id 500\"\nSQL: SELECT u.user_id, u.user_name as employee_name, \nm.user_id as manager_id, m.user_name as manager_name, \nm.email as manager_email, m.talent_id as manager_talent_id\nFROM users u\nLEFT JOIN users m ON u.manager_user_id = m.user_id\nWHERE u.user_id = 500;\n\nExample 4:\nQuery: \"Count reportees for manager user_id 121\"\nSQL: SELECT COUNT(u.user_id) as reportee_count\nFROM users u\nWHERE u.manager_user_id = 121\nAND u.is_active = TRUE;\n\nExample 5:\nQuery: \"List all managers and their reportee count\"\nSQL: SELECT m.user_id, m.user_name, m.email, \nCOUNT(r.user_id) as reportee_count\nFROM users m\nLEFT JOIN users r ON r.manager_user_id = m.user_id AND r.is_active = TRUE\nWHERE m.is_manager = TRUE\nAND m.is_active = TRUE\nGROUP BY m.user_id, m.user_name, m.email\nORDER BY reportee_count DESC;\n\n==============================\nUSER EXPERTISE QUERIES\n==============================\n\nExample 6:\nQuery: \"Show all expertise for user John Doe including certifications\"\nSQL: SELECT u.user_name, p.product_name, upe.assessment_level,\nupe.expertise_implement, upe.expertise_advise, upe.expertise_design, upe.expertise_perform,\nupe.has_certification, upe.certification_url, upe.is_primary, upe.project_count\nFROM user_product_expertise upe\nJOIN users u ON upe.user_id = u.user_id\nJOIN products p ON upe.product_id = p.product_id\nWHERE LOWER(u.user_name) LIKE LOWER(" ++ sq ++ "%john doe%" ++ sq ++ ")\nAND upe.is_active = TRUE\nORDER BY upe.is_primary DESC, p.product_name;\n\nExample 7:\nQuery: \"List all users with API Connect certification\"\nSQL: SELECT u.user_id, u.user_name, u.email, p.product_name, \nupe.certification_url, upe.assessment_level\nFROM user_product_expertise upe\nJOIN users u ON upe.user_id = u.user_id\nJOIN products p ON upe.product_id = p.product_id\nWHERE LOWER(p.product_name) LIK"

/-- Window of `SAMPLE_QUERIES_c0` (its last 38 characters). -/
def SAMPLE_QUERIES_c0_win : String := "E " ++ sq ++ "%api connect%" ++ sq ++ "\nAND upe.has_certific"

/-- Segment 0 of `SAMPLE_QUERIES`. -/
def SAMPLE_QUERIES_c0 : String := SAMPLE_QUERIES_c0_main ++ SAMPLE_QUERIES_c0_win

/-- Body of `SAMPLE_QUERIES_c1` (all but its last 38 characters). -/
def SAMPLE_QUERIES_c1_main : String := "ation = TRUE\nAND upe.is_active = TRUE;\n\nExample 8:\nQuery: \"Get primary expertise for user_id 250\"\nSQL: SELECT u.user_name, p.product_name, upe.assessment_level,\nupe.project_count, upe.has_certification\nFROM user_product_expertise upe\nJOIN users u ON upe.user_id = u.user_id\nJOIN products p ON upe.product_id = p.product_id\nWHERE u.user_id = 250\nAND upe.is_primary = TRUE\nAND upe.is_active = TRUE;\n\nExample 9:\nQuery: \"Show all L3 and L4 experts for IBM Cloud\"\nSQL: SELECT u.user_id, u.user_name, u.email, p.product_name, \nupe.assessment_level, upe.project_count\nFROM user_product_expertise upe\nJOIN users u ON upe.user_id = u.user_id\nJOIN products p ON upe.product_id = p.product_id\nWHERE LOWER(p.product_name) LIKE " ++ sq ++ "%ibm cloud%" ++ sq ++ "\nAND upe.assessment_level IN (" ++ sq ++ "L3" ++ sq ++ ", " ++ sq ++ "L4" ++ sq ++ ")\nAND upe.is_active = TRUE\nORDER BY upe.assessment_level DESC, u.user_name;\n\n==============================\nREPORTEE EXPERTISE QUERIES\n==============================\n\nExample 10:\nQuery: \"Show all expertise details for reportees of manager user_id 121\"\nSQL: SELECT r.user_id, r.user_name, r.email, p.product_name,\nupe.assessment_level, upe.has_certification, upe.certification_url,\nupe.is_primary, upe.project_count\nFROM users r\nJOIN user_product_expertise upe ON r.user_id = upe.user_id\nJOIN products p ON upe.product_id = p.product_id\nWHERE r.manager_user_id = 121\nAND r.is_active = TRUE\nAND upe.is_active = TRUE\nORDER BY r.user_name, upe.is_primary DESC;\n\nExample 11:\nQuery: \"List reportees with certifications for manager with talent_id T98765\"\nSQL: SELECT r.user_id, r.user_name, r.email, p.product_name,\nupe.certification_url, upe.assessment_level\nFROM users r\nJOIN users m ON r.manager_user_id = m.user_id\nJOIN user_product_expertise upe ON r.user_id = upe.user_id\nJOIN products p ON upe.product_id = p.product_id\nWHERE m.talent_id = " ++ sq ++ "T98765" ++ sq ++ "\nAND upe.has_certification = TRUE\nAND r.is_active = TRUE\nAND upe.is_active = TRUE\nORDER BY r.user_name, p.product_name;\n\nExample 12:\nQuery: \"Count total certifications for all reportees of manager_id 121\"\nSQL: SELECT COUNT(upe.expertise_id) as total_certifications\nFROM users r\nJOIN user_product_expertise upe ON r.user_id = upe.user_id\nWHERE r.manager_user_id = 121\nAND upe.has_certification = TRUE\nAND r.is_active = TRUE\nAND upe.is_active = TRUE;\n\nExample 13:\nQuery: \"Show reportees grouped by expertise level for manager user_id 300\"\nSQL: SELECT upe.assessment_level, COUNT(DISTINCT r.user_id) as user_count\nFROM users r\nJOIN user_product_expe"

/-- Window of `SAMPLE_QUERIES_c1` (its last 38 characters). -/
def SAMPLE_QUERIES_c1_win : String := "rtise upe ON r.user_id = upe.user_id\nW"

/-- Segment 1 of `SAMPLE_QUERIES`. -/
def SAMPLE_QUERIES_c1 : String := SAMPLE_QUERIES_c1_main ++ SAMPLE_QUERIES_c1_win

/-- Body of `SAMPLE_QUERIES_c2` (all but its last 38 characters). -/
def SAMPLE_QUERIES_c2_main : String := "HERE r.manager_user_id = 300\nAND r.is_active = TRUE\nAND upe.is_active = TRUE\nGROUP BY upe.assessment_level\nORDER BY upe.assessment_level;\n\n==============================\nASSET & KNOWLEDGE QUERIES\n==============================\n\nExample 14:\nQuery: \"Top 5 users with most approved assets\"\nSQL: SELECT u.user_id, u.user_name, COUNT(upa.asset_id) as asset_count\nFROM user_product_assets upa\nJOIN users u ON upa.user_id = u.user_id\nWHERE upa.approval_status = " ++ sq ++ "APPROVED" ++ sq ++ "\nAND upa.is_active = TRUE\nGROUP BY u.user_id, u.user_name\nORDER BY asset_count DESC\nFETCH FIRST 5 ROWS ONLY;\n\nExample 15:\nQuery: \"List all knowledge sharing content by user John Doe\"\nSQL: SELECT u.user_name, p.product_name, upks.content_title, \nupks.content_type, upks.platform_type, upks.views_count, \nupks.engagement_count, upks.approval_status\nFROM user_product_knowledge_sharing upks\nJOIN users u ON upks.user_id = u.user_id\nJOIN products p ON upks.product_id = p.product_id\nWHERE LOWER(u.user_name) LIKE LOWER(" ++ sq ++ "%john doe%" ++ sq ++ ")\nAND upks.is_active = TRUE\nORDER BY upks.created_at DESC;\n\nExample 16:\nQuery: \"Show reportees knowledge sharing metrics for manager_id 121\"\nSQL: SELECT r.user_name, COUNT(upks.knowledge_id) as content_count,\nSUM(upks.views_count) as total_views,\nSUM(upks.engagement_count) as total_engagement\nFROM users r\nJOIN user_product_knowledge_sharing upks ON r.user_id = upks.user_id\nWHERE r.manager_user_id = 121\nAND upks.approval_status = " ++ sq ++ "APPROVED" ++ sq ++ "\nAND r.is_active = TRUE\nAND upks.is_active = TRUE\nGROUP BY r.user_id, r.user_name\nORDER BY total_views DESC;\n\n==============================\nSUBMISSION & APPROVAL QUERIES\n==============================\n\nExample 17:\nQuery: \"Show all pending submissions for manager_id 3243\"\nSQL: SELECT s.submission_id, u.user_name, s.submission_type, s.total_items, s.submitted_at\nFROM submissions s\nJOIN users u ON s.user_id = u.user_id\nWHERE s.manager_id = 3243\nAND s.submission_status = " ++ sq ++ "PENDING" ++ sq ++ "\nAND s.is_active = TRUE\nORDER BY s.submitted_at DESC;\n\nExample 18:\nQuery: \"Recent notifications for user_id 100 that are unread\"\nSQL: SELECT n.notification_id, n.notification_type, n.notification_title,\nn.notification_message, n.created_at\nFROM notifications n\nWHERE n.user_id = 100\nAND n.is_read = FALSE\nORDER BY n.created_at DESC;\n\nExample 19:\nQuery: \"Users without any approved expertise\"\nSQL: SELECT u.user_id, u.user_name, u.email\nFROM users u\nLEFT JOIN user_product_expertise upe ON u.user_id = upe.user_id\nAND upe.is_active = TRUE\nAND upe"

/-- Window of `SAMPLE_QUERIES_c2` (its last 38 characters). -/
def SAMPLE_QUERIES_c2_win : String := ".approved_by IS NOT NULL\nWHERE upe.exp"

/-- Segment 2 of `SAMPLE_QUERIES`. -/
def SAMPLE_QUERIES_c2 : String := SAMPLE_QUERIES_c2_main ++ SAMPLE_QUERIES_c2_win

/-- Body of `SAMPLE_QUERIES_c3` (all but its last 38 characters). -/
def SAMPLE_QUERIES_c3_main : String := "ertise_id IS NULL\nAND u.is_active = TRUE\nAND u.user_role = " ++ sq ++ "DC" ++ sq ++ ";\n\n==============================\nPJRS & PRODUCT MAPPING\n==============================\n\nExample 20:\nQuery: \"Show products mapped to PJRS code ABC123\"\nSQL: SELECT p.product_id, p.product_name, p.category, ppm.display_order\nFROM pjrs_product_mapping ppm\nJOIN products p ON ppm.product_id = p.product_id\nWHERE ppm.pjrs = " ++ sq ++ "ABC123" ++ sq ++ "\nAND ppm.is_active = TRUE\nAND p.is_active = TRUE\nORDER BY ppm.display_order;\n\nExample 21:\nQuery: \"List users in same PJRS as user John Doe\"\nSQL: SELECT u2.user_id, u2.user_name, u2.email, u2.job_role\nFROM users u1\nJOIN users u2 ON u1.pjrs = u2.pjrs\nWHERE LOWER(u1.user_name) LIKE LOWER(" ++ sq ++ "%john doe%" ++ sq ++ ")\nAND u2.user_id != u1.user_id\nAND u1.is_a"

/-- Window of `SAMPLE_QUERIES_c3` (its last 38 characters). -/
def SAMPLE_QUERIES_c3_win : String := "ctive = TRUE\nAND u2.is_active = TRUE;\n"

/-- Segment 3 of `SAMPLE_QUERIES`. -/
def SAMPLE_QUERIES_c3 : String := SAMPLE_QUERIES_c3_main ++ SAMPLE_QUERIES_c3_win

/-- Few-shot example bank, transcribed verbatim from `SAMPLE_QUERIES` (sql_query_generator.py:202-454). -/
def SAMPLE_QUERIES : String := SAMPLE_QUERIES_c0 ++ SAMPLE_QUERIES_c1 ++ SAMPLE_QUERIES_c2 ++ SAMPLE_QUERIES_c3

/-- Body of `promptTaskPre` (all but its last 38 characters). -/
def promptTaskPre_main : String := "\n\n==============================\nTASK\n==============================\n\nConvert the natural language request into corr"

/-- Window of `promptTaskPre` (its last 38 characters). -/
def promptTaskPre_win : String := "ect DB2 SQL.\n\nNatural Language Query:\n"

/-- System prompt: TASK framing up to the natural-language query substitution. -/
def promptTaskPre : String := promptTaskPre_main ++ promptTaskPre_win

/-- System prompt: text after the natural-language query, ending with the cue line. -/
def promptTail : String := "\n\nSQL Query:\n"

/-- Context-block template segment 0 of the f-string (sql_query_generator.py:537-568). -/
def ctxSeg0 : String := "\n                ==============================\n                CURRENT USER CONTEXT\n                ==============================\n                The logged-in user information:\n                \n                user_id: "

/-- Context-block template segment 1 of the f-string (sql_query_generator.py:537-568). -/
def ctxSeg1 : String := "\n                talent_id: "

/-- Context-block template segment 2 of the f-string (sql_query_generator.py:537-568). -/
def ctxSeg2 : String := "\n                user_name: "

/-- Context-block template segment 3 of the f-string (sql_query_generator.py:537-568). -/
def ctxSeg3 : String := "\n                email: "

/-- Context-block template segment 4 of the f-string (sql_query_generator.py:537-568). -/
def ctxSeg4 : String := "\n                is_manager: "

/-- Context-block template, sixth segment up to the identity-substitution site. -/
def ctxSeg5a : String := "\n                \n                CONTEXT RULES:\n                --------------\n                If the user query contains words like:\n                - \"my\"\n                - \"me\"\n                - \"mine\"\n                \n                You MUST interpret them as referring to:\n                "

/-- Context-block template segment 6 of the f-string (sql_query_generator.py:537-568). -/
def ctxSeg6 : String := "\n                \n                Example:\n                \"Show my expertise\"\n                → WHERE users.user_id = "

/-- Context-block template segment 7 of the f-string (sql_query_generator.py:537-568). -/
def ctxSeg7 : String := "\n                \n                \"Show my submissions\"\n                → submissions.user_id = "

/-- Context-block template segment 8 of the f-string (sql_query_generator.py:537-568). -/
def ctxSeg8 : String := "\n                \n                \"Who is my manager?\"\n                → lookup manager using manager_user_id.\n                "

/-- A user-context mapping (`user_context: dict`).  Entries are modelled by
their Python `str()` renderings, since the prompt template only ever
interpolates the values into text. -/
abbrev Ctx := List (String × String)

/-- Embedding of `user_context.get(key)` rendered into the f-string: the stored value when
the key is present, otherwise Python renders `None` as the text `None`. -/
def ctxGet (ctx : Ctx) (key : String) : String :=
  (List.lookup key ctx).getD "None"

/-- Python truthiness of the `user_context` argument (`if user_context:` at
sql_query_generator.py:536): `None` and the empty mapping are falsy. -/
def truthyCtx : Option Ctx → Bool
  | none => false
  | some ctx => !List.isEmpty ctx

/-- The rendered `CURRENT USER CONTEXT` f-string of `generate_sql_query`
(sql_query_generator.py:537-568): template segments interleaved with the
`user_context.get(...)` substitutions, in source order. -/
def renderContextBlock (ctx : Ctx) : String :=
  ctxSeg0 ++ ctxGet ctx "user_id" ++ ctxSeg1 ++ ctxGet ctx "talent_id" ++
  ctxSeg2 ++ ctxGet ctx "user_name" ++ ctxSeg3 ++ ctxGet ctx "email" ++
  ctxSeg4 ++ ctxGet ctx "is_manager" ++ ctxSeg5a ++ "users.user_id = " ++
  ctxGet ctx "user_id" ++ ctxSeg6 ++ ctxGet ctx "user_id" ++ ctxSeg7 ++
  ctxGet ctx "user_id" ++ ctxSeg8

/-- Embedding of `context_block` of `generate_sql_query` (sql_query_generator.py:533-568):
the empty string unless `user_context` is truthy. -/
def contextBlock : Option Ctx → String
  | none => ""
  | some ctx => if List.isEmpty ctx then "" else renderContextBlock ctx

/-- Embedding of `system_prompt` of `generate_sql_query` (sql_query_generator.py:570-926):
the prompt f-string as the concatenation of its literal segments and
substitutions in source order. -/
def systemPrompt (natural_language_query : String) (user_context : Option Ctx) : String :=
  promptRole ++ promptNarrative ++ promptRules ++ contextBlock user_context ++
  promptSchemaHdr ++ TABLE_SCHEMAS ++ promptExamplesHdr ++ SAMPLE_QUERIES ++
  promptTaskPre ++ natural_language_query ++ promptTail

/-- The identity-substitution instruction sentence of the context block
(sql_query_generator.py:556), used to detect whether the instruction
appears in a prompt. -/
def instrMarkerL : List Char := ("You MUST interpret them as referring to").data

/-! ## Configuration (`config.py`)

The process environment is modelled as an association list from variable
names to the string values that are set; `os.getenv` returns `none` for
absent variables. -/

/-- A process environment. -/
abbrev Env := List (String × String)

/-- Embedding of `os.getenv(name)`. -/
def getenv (env : Env) (name : String) : Option String :=
  List.lookup name env

/-- The class attribute `getattr(Config, name)` for the nine validated
configuration values (config.py:16-31): `DB2_PORT` and `DB2_DATABASE` carry
`os.getenv` defaults (`"30756"`, `"bludb"`); the others are `os.getenv`
with no default and may be `None`. -/
def configAttr (env : Env) : String → Option String
  | "DB2_USERNAME" => getenv env "DB2_USERNAME"
  | "DB2_PASSWORD" => getenv env "DB2_PASSWORD"
  | "DB2_HOSTNAME" => getenv env "DB2_HOSTNAME"
  | "DB2_PORT" => some ((getenv env "DB2_PORT").getD "30756")
  | "DB2_DATABASE" => some ((getenv env "DB2_DATABASE").getD "bludb")
  | "WATSONX_URL" => getenv env "WATSONX_URL"
  | "WATSONX_API_KEY" => getenv env "WATSONX_API_KEY"
  | "WATSONX_PROJECT_ID" => getenv env "WATSONX_PROJECT_ID"
  | "WATSONX_MODEL_ID" => getenv env "WATSONX_MODEL_ID"
  | _ => none

/-- Python truthiness of a configuration attribute: `None` and the empty
string are falsy (`if not getattr(cls, var)` at config.py:62). -/
def truthyOpt : Option String → Bool
  | none => false
  | some s => !(s == "")

/-- Embedding of `required_db_vars` (config.py:44-50). -/
def requiredDbVars : List String :=
  ["DB2_USERNAME", "DB2_PASSWORD", "DB2_HOSTNAME", "DB2_PORT", "DB2_DATABASE"]

/-- Embedding of `required_watsonx_vars` (config.py:52-57). -/
def requiredWatsonxVars : List String :=
  ["WATSONX_URL", "WATSONX_API_KEY", "WATSONX_PROJECT_ID", "WATSONX_MODEL_ID"]

/-- Embedding of `missing_vars` accumulated by `Config.validate` (config.py:59-67): the
required names whose attribute is falsy, db variables first. -/
def missingVars (env : Env) : List String :=
  (requiredDbVars ++ requiredWatsonxVars).filter
    (fun v => !truthyOpt (configAttr env v))

/-- Python `", ".join(missing_vars)`. -/
def joinComma : List String → String
  | [] => ""
  | [x] => x
  | x :: xs => x ++ ", " ++ joinComma xs

/-- The `ValueError` message built by `Config.validate` (config.py:70-73). -/
def validateMsg (env : Env) : String :=
  "Missing required environment variables: " ++ joinComma (missingVars env) ++
  "\nPlease check your .env file in the project root."

/-- Embedding of `Config.validate` (config.py:41-75): raise `ValueError` listing all the
missing variables when any required value is falsy, else return `True`. -/
def Config_validate (env : Env) : Except String Bool :=
  if missingVars env = [] then Except.ok true
  else Except.error (validateMsg env)

/-! ## Request handler (`main.py`)

`process_query` delegates SQL generation and execution to the generator and
the database client; both are modelled as oracle functions returning either
a value or the message of the exception they raise.  `datetime.now()` is an
oracle string. -/

/-- A `fastapi.HTTPException` with its status code and detail message. -/
structure HTTPException where
  status_code : Nat
  detail : String
  deriving DecidableEq

/-- An exception escaping the `try` block of `process_query`: either an
`HTTPException` or any other exception rendered by its message. -/
inductive PyExc where
  | http (e : HTTPException)
  | other (msg : String)

/-- Python `str(e)`: Starlette renders an `HTTPException` as
`"{status_code}: {detail}"`; other exceptions render as their message. -/
def pyStrExc : PyExc → String
  | PyExc.http e => toString e.status_code ++ ": " ++ e.detail
  | PyExc.other m => m

/-- Query results: a list of row mappings. -/
abbrev Rows := List (List (String × String))

/-- The success payload `QueryResponse` (main.py:25-42, 106-112). -/
structure QueryResponse where
  success : Bool
  natural_query : String
  generated_sql : String
  results : Rows
  timestamp : String

/-- Python `str.strip` on `String`. -/
def pyStripS (s : String) : String := String.mk (pyStrip s.data)

/-- The body of the `try` block of `process_query` (main.py:94-112):
strip the query, reject a blank one with an `HTTPException(400)`, generate
SQL, execute it, and build the response. -/
def process_query_body (user_query_raw : String)
    (gen : String → Except String String) (ex : String → Except String Rows)
    (now : String) : Except PyExc QueryResponse :=
  let user_query := pyStripS user_query_raw
  if user_query = "" then Except.error (PyExc.http ⟨400, "Missing user query"⟩)
  else
    match gen user_query with
    | Except.error m => Except.error (PyExc.other m)
    | Except.ok sql_query =>
      match ex sql_query with
      | Except.error m => Except.error (PyExc.other m)
      | Except.ok results =>
        Except.ok ⟨true, user_query, sql_query, results, now⟩

/-- Embedding of `process_query` (main.py:92-115): the `except Exception` clause catches
every exception raised in the `try` block — including the `HTTPException`
with status 400 raised for a blank query — and re-raises it as
`HTTPException(status_code=500, detail=str(e))`. -/
def process_query (user_query_raw : String)
    (gen : String → Except String String) (ex : String → Except String Rows)
    (now : String) : Except HTTPException QueryResponse :=
  match process_query_body user_query_raw gen ex now with
  | Except.ok r => Except.ok r
  | Except.error e => Except.error ⟨500, pyStrExc e⟩

/-! ## General lemmas about the embedded text operations -/

theorem data_append (a b : String) : (a ++ b).data = a.data ++ b.data := by
  cases a; cases b; rfl

theorem data_empty : ("" : String).data = ([] : List Char) := rfl

theorem ps_self (p t : List Char) : pyStartsWith p (p ++ t) = true := by
  induction p with
  | nil => rfl
  | cons c p ih => simp [pyStartsWith, ih]

theorem ps_iff (p s : List Char) : pyStartsWith p s = true ↔ ∃ t, s = p ++ t := by
  induction p generalizing s with
  | nil => exact ⟨fun _ => ⟨s, rfl⟩, fun _ => rfl⟩
  | cons c p ih =>
    cases s with
    | nil => simp [pyStartsWith]
    | cons d s =>
      simp only [pyStartsWith, Bool.and_eq_true, beq_iff_eq, ih, List.cons_append,
        List.cons.injEq]
      constructor
      · rintro ⟨rfl, t, rfl⟩; exact ⟨t, rfl, rfl⟩
      · rintro ⟨t, rfl, rfl⟩; exact ⟨rfl, t, rfl⟩

theorem ps_mono (p s t : List Char) (h : pyStartsWith p s = true) :
    pyStartsWith p (s ++ t) = true := by
  obtain ⟨u, rfl⟩ := (ps_iff p s).mp h
  rw [List.append_assoc]
  exact ps_self p (u ++ t)

theorem ps_append_of_le (p y b : List Char) (h : pyStartsWith p (y ++ b) = true)
    (hle : p.length ≤ y.length) : pyStartsWith p y = true := by
  induction p generalizing y with
  | nil => rfl
  | cons c p ih =>
    cases y with
    | nil => simp at hle
    | cons d y =>
      simp only [List.cons_append, pyStartsWith, Bool.and_eq_true] at h ⊢
      exact ⟨h.1, ih y h.2 (by simpa using hle)⟩

theorem cs_cons_eq (p : List Char) (c : Char) (t : List Char) :
    containsSub p (c :: t) = (pyStartsWith p (c :: t) || containsSub p t) := by
  cases hb : pyStartsWith p (c :: t) <;> simp [containsSub, hb]

theorem cs_of_ps (p s : List Char) (h : pyStartsWith p s = true) :
    containsSub p s = true := by
  cases s with
  | nil => exact h
  | cons c t => simp [cs_cons_eq, h]

theorem cs_cons (p : List Char) (c : Char) (t : List Char)
    (h : containsSub p t = true) : containsSub p (c :: t) = true := by
  simp [cs_cons_eq, h]

theorem cs_cons_false (p : List Char) (c : Char) (t : List Char)
    (h : containsSub p (c :: t) = false) : containsSub p t = false := by
  rw [cs_cons_eq, Bool.or_eq_false_iff] at h
  exact h.2

theorem cs_append_left (p x t : List Char) (h : containsSub p t = true) :
    containsSub p (x ++ t) = true := by
  induction x with
  | nil => simpa using h
  | cons c x ih => exact cs_cons p c (x ++ t) ih

theorem cs_nil_pat (s : List Char) : containsSub [] s = true := by
  cases s with
  | nil => rfl
  | cons c t => simp [cs_cons_eq, pyStartsWith]

theorem cs_append_right (p x t : List Char) (h : containsSub p x = true) :
    containsSub p (x ++ t) = true := by
  induction x with
  | nil =>
    cases p with
    | nil => exact cs_nil_pat t
    | cons c q => simp [containsSub, pyStartsWith] at h
  | cons c x ih =>
    rw [cs_cons_eq] at h
    rcases Bool.or_eq_true_iff.mp h with hps | hcs
    · exact cs_of_ps _ _ (by simpa using ps_mono p (c :: x) t hps)
    · exact cs_cons p c (x ++ t) (ih hcs)

theorem cs_decomp (p x y : List Char) : containsSub p (x ++ (p ++ y)) = true :=
  cs_append_left p x (p ++ y) (cs_of_ps p (p ++ y) (ps_self p y))

/-- Gluing lemma for substring absence over a chunk boundary: if `p` occurs
neither in `x ++ w` nor in `w ++ b`, and the window `w` is long enough that
any occurrence straddling the boundary lies inside `x ++ w` or `w ++ b`,
then `p` does not occur in `x ++ (w ++ b)`. -/
theorem cs_glue (p x w b : List Char) (hlen : p.length ≤ w.length + 1)
    (h1 : containsSub p (x ++ w) = false) (h2 : containsSub p (w ++ b) = false) :
    containsSub p (x ++ (w ++ b)) = false := by
  induction x with
  | nil => simpa using h2
  | cons c x ih =>
    have h1c : containsSub p (x ++ w) = false :=
      cs_cons_false p c (x ++ w) (by simpa using h1)
    rw [List.cons_append, cs_cons_eq, Bool.or_eq_false_iff]
    refine ⟨?_, ih h1c⟩
    cases hcc : pyStartsWith p (c :: (x ++ (w ++ b)))
    · rfl
    · exfalso
      have hshape : c :: (x ++ (w ++ b)) = (c :: (x ++ w)) ++ b := by simp
      rw [hshape] at hcc
      have hle : p.length ≤ (c :: (x ++ w)).length := by
        simp only [List.length_cons, List.length_append]
        omega
      have hpre : pyStartsWith p (c :: (x ++ w)) = true :=
        ps_append_of_le p (c :: (x ++ w)) b hcc hle
      have hocc : containsSub p ((c :: x) ++ w) = true := by
        rw [List.cons_append, cs_cons_eq, hpre, Bool.true_or]
      rw [h1] at hocc
      exact Bool.false_ne_true hocc

/-- Step of the chunked scan: the previous 38-character window `w` is glued
to the next chunk `a ++ w′` and the scan continues from window `w′`. -/
theorem cs_pair_step (p w a w' b : List Char) (hlen : p.length ≤ w'.length + 1)
    (h1 : containsSub p ((w ++ a) ++ w') = false)
    (h2 : containsSub p (w' ++ b) = false) :
    containsSub p (w ++ (a ++ (w' ++ b))) = false := by
  have hshape : w ++ (a ++ (w' ++ b)) = (w ++ a) ++ (w' ++ b) := by
    simp [List.append_assoc]
  rw [hshape]
  exact cs_glue p (w ++ a) w' b hlen h1 h2

/-! ## Lemmas about the fence splitters -/

theorem consHead_ne_nil (c : Char) (r : List (List Char)) : consHead c r ≠ [] := by
  cases r <;> simp [consHead]

theorem fenceSql_cons : fenceSql = bq :: bq :: bq :: 's' :: 'q' :: 'l' :: [] := rfl

theorem fenceMark_cons : fenceMark = bq :: bq :: bq :: [] := rfl

theorem sfs_neg (c : Char) (rest : List Char)
    (h : pyStartsWith fenceSql (c :: rest) = false) :
    splitFenceSql (c :: rest) = consHead c (splitFenceSql rest) := by
  rw [splitFenceSql.eq_def]
  simp [h]

theorem sfs_ne_nil (s : List Char) : splitFenceSql s ≠ [] := by
  cases s with
  | nil => simp [splitFenceSql]
  | cons c rest =>
    cases hc : pyStartsWith fenceSql (c :: rest) with
    | false => rw [sfs_neg c rest hc]; exact consHead_ne_nil c _
    | true =>
      rcases rest with _ | ⟨a1, _ | ⟨a2, _ | ⟨a3, _ | ⟨a4, _ | ⟨a5, rest2⟩⟩⟩⟩⟩ <;>
        · rw [splitFenceSql.eq_def]; simp [hc]

theorem sfs_pos (t : List Char) : splitFenceSql (fenceSql ++ t) = [] :: splitFenceSql t := by
  have e : fenceSql ++ t = bq :: bq :: bq :: 's' :: 'q' :: 'l' :: t := rfl
  have h : pyStartsWith fenceSql (fenceSql ++ t) = true := ps_self fenceSql t
  rw [e] at h ⊢
  rw [splitFenceSql.eq_def]
  simp [h]

theorem sfs_prepend (x t h' : List Char) (t' : List (List Char))
    (hx : ∀ a ∈ x, a ≠ bq) (ht : splitFenceSql t = h' :: t') :
    splitFenceSql (x ++ t) = (x ++ h') :: t' := by
  induction x with
  | nil => simpa using ht
  | cons c x ih =>
    have hc : c ≠ bq := hx c (by simp)
    have hx' : ∀ a ∈ x, a ≠ bq := fun a ha => hx a (by simp [ha])
    have hbc : (bq == c) = false := by
      simp only [beq_eq_false_iff_ne]
      exact fun hh => hc hh.symm
    have hps : pyStartsWith fenceSql (c :: (x ++ t)) = false := by
      rw [fenceSql_cons]
      simp [pyStartsWith, hbc]
    rw [List.cons_append, sfs_neg c (x ++ t) hps, ih hx']
    simp [consHead]

theorem sf_neg (c : Char) (rest : List Char)
    (h : pyStartsWith fenceMark (c :: rest) = false) :
    splitFence (c :: rest) = consHead c (splitFence rest) := by
  rw [splitFence.eq_def]
  simp [h]

theorem sf_ne_nil (s : List Char) : splitFence s ≠ [] := by
  cases s with
  | nil => simp [splitFence]
  | cons c rest =>
    cases hc : pyStartsWith fenceMark (c :: rest) with
    | false => rw [sf_neg c rest hc]; exact consHead_ne_nil c _
    | true =>
      rcases rest with _ | ⟨a1, _ | ⟨a2, rest2⟩⟩ <;>
        · rw [splitFence.eq_def]; simp [hc]

theorem sf_pos (t : List Char) : splitFence (fenceMark ++ t) = [] :: splitFence t := by
  have e : fenceMark ++ t = bq :: bq :: bq :: t := rfl
  have h : pyStartsWith fenceMark (fenceMark ++ t) = true := ps_self fenceMark t
  rw [e] at h ⊢
  rw [splitFence.eq_def]
  simp [h]

theorem sf_prepend (x t h' : List Char) (t' : List (List Char))
    (hx : ∀ a ∈ x, a ≠ bq) (ht : splitFence t = h' :: t') :
    splitFence (x ++ t) = (x ++ h') :: t' := by
  induction x with
  | nil => simpa using ht
  | cons c x ih =>
    have hc : c ≠ bq := hx c (by simp)
    have hx' : ∀ a ∈ x, a ≠ bq := fun a ha => hx a (by simp [ha])
    have hbc : (bq == c) = false := by
      simp only [beq_eq_false_iff_ne]
      exact fun hh => hc hh.symm
    have hps : pyStartsWith fenceMark (c :: (x ++ t)) = false := by
      rw [fenceMark_cons]
      simp [pyStartsWith, hbc]
    rw [List.cons_append, sf_neg c (x ++ t) hps, ih hx']
    simp [consHead]

/-- Behaviour of `splitFenceSql` on text beginning with the bare closing
fence, when no misaligned ```` ```sql ```` match can start inside the fence:
the fence characters are simply carried into the head segment. -/
theorem sfs_on_fenceMark (post h' : List Char) (t' : List (List Char))
    (h1 : pyStartsWith ("sql".data) post = false)
    (h2 : pyStartsWith ("`sql".data) post = false)
    (h3 : pyStartsWith ("``sql".data) post = false)
    (hpost : splitFenceSql post = h' :: t') :
    splitFenceSql (fenceMark ++ post) = (fenceMark ++ h') :: t' := by
  have e : fenceMark ++ post = bq :: bq :: bq :: post := rfl
  have hps1 : pyStartsWith fenceSql (bq :: bq :: bq :: post) = false := by
    rw [fenceSql_cons]
    simpa [pyStartsWith] using h1
  have hps2 : pyStartsWith fenceSql (bq :: bq :: post) = false := by
    rw [fenceSql_cons]
    simpa [pyStartsWith] using h2
  have hps3 : pyStartsWith fenceSql (bq :: post) = false := by
    rw [fenceSql_cons]
    simpa [pyStartsWith] using h3
  rw [e, sfs_neg _ _ hps1, sfs_neg _ _ hps2, sfs_neg _ _ hps3, hpost]
  simp [consHead, fenceMark_cons]

/-! ## Lemmas about stripping and filtering -/

theorem pyStrip_sublist (s : List Char) : (pyStrip s).Sublist s := by
  have h1 : (s.dropWhile isPySpace).Sublist s := List.dropWhile_sublist _
  have h2 : (((s.dropWhile isPySpace).reverse.dropWhile isPySpace)).Sublist
      (s.dropWhile isPySpace).reverse := List.dropWhile_sublist _
  have h3 := h2.reverse
  rw [List.reverse_reverse] at h3
  exact h3.trans h1

theorem mem_pyStrip (c : Char) (s : List Char) (h : c ∈ pyStrip s) : c ∈ s :=
  (pyStrip_sublist s).subset h

theorem not_semi_mem_removeSemis (s : List Char) : ';' ∉ removeSemis s := by
  intro h
  rcases List.mem_filter.mp h with ⟨-, hb⟩
  simp at hb

theorem getLast?_append_right (l₁ l₂ : List Char) (h : l₂ ≠ []) :
    (l₁ ++ l₂).getLast? = l₂.getLast? := by
  induction l₁ with
  | nil => rfl
  | cons c l ih =>
    have hne : l ++ l₂ ≠ [] := by simp [h]
    obtain ⟨y, ys, hy⟩ := List.exists_cons_of_ne_nil hne
    rw [List.cons_append, hy, List.getLast?_cons_cons, ← hy, ih]

theorem joinComma_contains (v : String) (l : List String) (hv : v ∈ l) :
    containsSub v.data (joinComma l).data = true := by
  induction l with
  | nil => cases hv
  | cons x xs ih =>
    rcases List.mem_cons.mp hv with rfl | hv'
    · cases xs with
      | nil => exact cs_of_ps _ _ (by simpa using ps_self v.data [])
      | cons y ys =>
        have hj : joinComma (v :: y :: ys) = v ++ ", " ++ joinComma (y :: ys) := rfl
        rw [hj, data_append, data_append, List.append_assoc]
        exact cs_of_ps _ _ (ps_self _ _)
    · cases xs with
      | nil => cases hv'
      | cons y ys =>
        have hj : joinComma (x :: y :: ys) = x ++ ", " ++ joinComma (y :: ys) := rfl
        rw [hj, data_append, data_append, List.append_assoc]
        exact cs_append_left _ _ _ (cs_append_left _ _ _ (ih hv'))

/-- The identity-substitution instruction occurs nowhere in the prompt
built for `"Show my submissions"` with no user context: the static prompt
text outside the context block never contains it.  Proved by scanning the
prompt chunk by chunk and gluing at the 38-character boundary windows. -/
theorem noMarker_q0 :
    containsSub instrMarkerL (systemPrompt "Show my submissions" none).data = false := by
  have hnorm : (systemPrompt "Show my submissions" none).data =
      promptRole_main.data ++ (promptRole_win.data ++ (promptNarrative_c0_main.data ++ (promptNarrative_c0_win.data ++ (promptNarrative_c1_main.data ++ (promptNarrative_c1_win.data ++ (promptRules_c0_main.data ++ (promptRules_c0_win.data ++ (promptRules_c1_main.data ++ (promptRules_c1_win.data ++ (promptSchemaHdr_main.data ++ (promptSchemaHdr_win.data ++ (TABLE_SCHEMAS_c0_main.data ++ (TABLE_SCHEMAS_c0_win.data ++ (TABLE_SCHEMAS_c1_main.data ++ (TABLE_SCHEMAS_c1_win.data ++ (TABLE_SCHEMAS_c2_main.data ++ (TABLE_SCHEMAS_c2_win.data ++ (TABLE_SCHEMAS_c3_main.data ++ (TABLE_SCHEMAS_c3_win.data ++ (promptExamplesHdr_main.data ++ (promptExamplesHdr_win.data ++ (SAMPLE_QUERIES_c0_main.data ++ (SAMPLE_QUERIES_c0_win.data ++ (SAMPLE_QUERIES_c1_main.data ++ (SAMPLE_QUERIES_c1_win.data ++ (SAMPLE_QUERIES_c2_main.data ++ (SAMPLE_QUERIES_c2_win.data ++ (SAMPLE_QUERIES_c3_main.data ++ (SAMPLE_QUERIES_c3_win.data ++ (promptTaskPre_main.data ++ (promptTaskPre_win.data ++ (("Show my submissions" : String).data ++ (promptTail.data))))))))))))))))))))))))))))))))) := by
    simp only [systemPrompt, contextBlock, promptRole, promptNarrative_c0, promptNarrative_c1, promptNarrative, promptRules_c0, promptRules_c1, promptRules, promptSchemaHdr, TABLE_SCHEMAS_c0, TABLE_SCHEMAS_c1, TABLE_SCHEMAS_c2, TABLE_SCHEMAS_c3, TABLE_SCHEMAS, promptExamplesHdr, SAMPLE_QUERIES_c0, SAMPLE_QUERIES_c1, SAMPLE_QUERIES_c2, SAMPLE_QUERIES_c3, SAMPLE_QUERIES, promptTaskPre,
      data_append, data_empty, List.nil_append, List.append_assoc]
  rw [hnorm]
  refine cs_glue _ _ _ _ (by decide) (by decide) ?_
  refine cs_pair_step _ _ _ _ _ (by decide) (by decide) ?_
  refine cs_pair_step _ _ _ _ _ (by decide) (by decide) ?_
  refine cs_pair_step _ _ _ _ _ (by decide) (by decide) ?_
  refine cs_pair_step _ _ _ _ _ (by decide) (by decide) ?_
  refine cs_pair_step _ _ _ _ _ (by decide) (by decide) ?_
  refine cs_pair_step _ _ _ _ _ (by decide) (by decide) ?_
  refine cs_pair_step _ _ _ _ _ (by decide) (by decide) ?_
  refine cs_pair_step _ _ _ _ _ (by decide) (by decide) ?_
  refine cs_pair_step _ _ _ _ _ (by decide) (by decide) ?_
  refine cs_pair_step _ _ _ _ _ (by decide) (by decide) ?_
  refine cs_pair_step _ _ _ _ _ (by decide) (by decide) ?_
  refine cs_pair_step _ _ _ _ _ (by decide) (by decide) ?_
  refine cs_pair_step _ _ _ _ _ (by decide) (by decide) ?_
  refine cs_pair_step _ _ _ _ _ (by decide) (by decide) ?_
  refine cs_pair_step _ _ _ _ _ (by decide) (by decide) ?_
  decide

/-! ## Shared helper lemmas for the claims -/

theorem ps_concat2 (a b r : List Char) : pyStartsWith (a ++ b) (a ++ (b ++ r)) = true := by
  have h := ps_self (a ++ b) r
  simpa [List.append_assoc] using h

theorem contextBlock_falsy (uc : Option Ctx) (h : truthyCtx uc = false) :
    contextBlock uc = "" := by
  cases uc with
  | none => rfl
  | some l =>
    simp only [truthyCtx, Bool.not_eq_false'] at h
    simp [contextBlock, h]

theorem systemPrompt_falsy (q : String) (uc : Option Ctx) (h : truthyCtx uc = false) :
    systemPrompt q uc = systemPrompt q none := by
  simp only [systemPrompt, contextBlock_falsy uc h,
    show contextBlock none = "" from rfl]

theorem prompt_getLast (q : String) (uc : Option Ctx) :
    (systemPrompt q uc).data.getLast? = some '\n' := by
  have hdecomp : (systemPrompt q uc).data =
      (promptRole ++ promptNarrative ++ promptRules ++ contextBlock uc ++
        promptSchemaHdr ++ TABLE_SCHEMAS ++ promptExamplesHdr ++ SAMPLE_QUERIES ++
        promptTaskPre ++ q).data ++ promptTail.data := by
    rw [systemPrompt, data_append]
  rw [hdecomp, getLast?_append_right _ _ (by decide)]
  decide

/-! ## Claims -/

/-- C1 counterexample: on the example input given in the spec the call fails, but
the raised `ValueError` carries only the fixed message
`"Generated output is not a valid SELECT statement"` — not the rejected
(cleaned) text `"UPDATE users SET x=1"` — so the error does not carry the
offending text for diagnostics. -/
theorem c1_counterexample :
    clean_sql_query ("Here is the answer.\nUPDATE users SET x=1").data =
      Except.error selectErrMsg ∧
    joinCleanLines (extractFenced ("Here is the answer.\nUPDATE users SET x=1").data) =
      ("UPDATE users SET x=1").data ∧
    selectErrMsg ≠ ("UPDATE users SET x=1").data := by
  refine ⟨rfl, rfl, ?_⟩
  decide

/-- C1 (amended): `clean_sql_query` fails exactly when the cleaned-text
upper-cased form does not begin with `SELECT`, and the error then carries
the fixed diagnostic message (not the rejected text); in particular
`clean_sql("Here is the answer.\nUPDATE users SET x=1")` fails. -/
theorem c1_select_gate :
    (∀ s : List Char,
      clean_sql_query s =
        if pyStartsWith ("SELECT".data) (pyUpper (joinCleanLines (extractFenced s)))
        then Except.ok (joinCleanLines (extractFenced s))
        else Except.error selectErrMsg) ∧
    clean_sql_query ("Here is the answer.\nUPDATE users SET x=1").data =
      Except.error selectErrMsg :=
  ⟨fun _ => rfl, rfl⟩

/-- C2 counterexample: the raw completion `"```sqlSELECT 1````sql Thanks!"`
is wrapped in a fenced code block with content `"SELECT 1"` (opening fence,
content, closing fence, trailing text), yet `clean_sql_query` returns
`"SELECT 1`"`, which includes a backtick taken from beyond the first
closing fence — the extraction does not use exactly the fenced content and
does not ignore all text after the fence. -/
theorem c2_counterexample :
    ("```sqlSELECT 1````sql Thanks!").data =
      fenceSql ++ ("SELECT 1").data ++ fenceMark ++ ("`sql Thanks!").data ∧
    clean_sql_query ("```sqlSELECT 1````sql Thanks!").data =
      Except.ok ("SELECT 1`").data ∧
    ("SELECT 1`").data ≠ ("SELECT 1").data := by
  refine ⟨rfl, rfl, ?_⟩
  decide

/-- C2 (amended): for every raw completion wrapped as
`pre ++ "```sql" ++ content ++ "```" ++ post` with unambiguous fences (no
backtick occurs in `pre` or in `content`) and where the text after the
closing fence does not begin with one or two backticks followed by `sql`
(which would shift the non-overlapping separator match of `split`), the
fence-extraction step uses exactly `content`, ignoring all text before and
after the fence; the example from the spec
`clean_sql("```sql\nSELECT 1\n```\nThanks!") = "SELECT 1"` holds. -/
theorem c2_fenced_extraction :
    (∀ pre content post : List Char,
      (∀ c ∈ pre, c ≠ bq) → (∀ c ∈ content, c ≠ bq) →
      pyStartsWith (("`sql").data) post = false →
      pyStartsWith (("``sql").data) post = false →
      extractFenced (pre ++ fenceSql ++ content ++ fenceMark ++ post) = content) ∧
    clean_sql_query ("```sql\nSELECT 1\n```\nThanks!").data =
      Except.ok ("SELECT 1").data := by
  constructor
  · intro pre content post hpre hcontent hp1 hp2
    have hassoc : pre ++ fenceSql ++ content ++ fenceMark ++ post =
        pre ++ (fenceSql ++ (content ++ (fenceMark ++ post))) := by
      simp [List.append_assoc]
    rw [hassoc]
    have hcs : containsSub fenceSql
        (pre ++ (fenceSql ++ (content ++ (fenceMark ++ post)))) = true :=
      cs_decomp fenceSql pre (content ++ (fenceMark ++ post))
    have hkey : ∃ h2 t2 t3, splitFenceSql (fenceMark ++ post) = h2 :: t2 ∧
        splitFence h2 = [] :: t3 := by
      cases hsql : pyStartsWith (("sql").data) post with
      | true =>
        obtain ⟨post', rfl⟩ := (ps_iff _ _).mp hsql
        have hfm : fenceMark ++ (("sql").data ++ post') = fenceSql ++ post' := rfl
        rw [hfm, sfs_pos]
        exact ⟨[], splitFenceSql post', [], rfl, rfl⟩
      | false =>
        obtain ⟨hf, tf, hft⟩ := List.exists_cons_of_ne_nil (sfs_ne_nil post)
        exact ⟨fenceMark ++ hf, tf, splitFence hf,
          sfs_on_fenceMark post hf tf hsql hp1 hp2 hft, sf_pos hf⟩
    obtain ⟨h2, t2, t3, hsp2, hsf2⟩ := hkey
    have hR : splitFenceSql (content ++ (fenceMark ++ post)) = (content ++ h2) :: t2 :=
      sfs_prepend content (fenceMark ++ post) h2 t2 hcontent hsp2
    have hstep : splitFenceSql (fenceSql ++ (content ++ (fenceMark ++ post))) =
        [] :: ((content ++ h2) :: t2) := by rw [sfs_pos, hR]
    have hFull : splitFenceSql (pre ++ (fenceSql ++ (content ++ (fenceMark ++ post)))) =
        pre :: (content ++ h2) :: t2 := by
      have h := sfs_prepend pre (fenceSql ++ (content ++ (fenceMark ++ post)))
        [] ((content ++ h2) :: t2) hpre hstep
      simpa using h
    have hsfc : splitFence (content ++ h2) = (content ++ []) :: t3 :=
      sf_prepend content h2 [] t3 hcontent hsf2
    simp [extractFenced, hcs, hFull, hsfc]
  · rfl

/-- C2 witness: the amended extraction theorem applied to the decomposition
of the example input from the spec. -/
theorem c2_witness :
    extractFenced (([] : List Char) ++ fenceSql ++ ("\nSELECT 1\n").data ++
      fenceMark ++ ("\nThanks!").data) = ("\nSELECT 1\n").data :=
  c2_fenced_extraction.1 [] (("\nSELECT 1\n").data) (("\nThanks!").data)
    (by decide) (by decide) (by decide) (by decide)

/-- C3: the sanitizer drops exactly the lines that strip to empty or begin
(case-insensitively) with a filler word — dropping such a line never
changes the output — and every retained line beginning with the `sql:`
label (case-insensitively) contributes the remainder of the line with the
label stripped; the example from the spec
`clean_sql("Explanation: foo\nSELECT * FROM users") = "SELECT * FROM users"`
holds. -/
theorem c3_line_filtering :
    (∀ fl : List Char,
      keepLine fl = none ↔ (pyStrip fl = [] ∨ fillerStart (pyStrip fl) = true)) ∧
    (∀ (ls₁ ls₂ : List (List Char)) (fl : List Char), keepLine fl = none →
      processLines (ls₁ ++ fl :: ls₂) = processLines (ls₁ ++ ls₂)) ∧
    (∀ (l r : List Char), keepLine l = some r →
      pyStartsWith ("sql:".data) (pyLower (pyStrip l)) = true →
      r = pyStrip ((pyStrip l).drop 4)) ∧
    clean_sql_query ("Explanation: foo\nSELECT * FROM users").data =
      Except.ok ("SELECT * FROM users").data := by
  refine ⟨?_, ?_, ?_, rfl⟩
  · intro fl
    by_cases h1 : pyStrip fl = []
    · have hE : (pyStrip fl).isEmpty = true := by simp [h1]
      simp [keepLine, hE, h1]
    · have hE : (pyStrip fl).isEmpty = false := by simpa using h1
      by_cases h2 : fillerStart (pyStrip fl) = true
      · simp [keepLine, hE, h2]
      · have hF : fillerStart (pyStrip fl) = false := Bool.eq_false_iff.mpr h2
        simp only [keepLine, hE, hF, Bool.not_false, Bool.and_self, if_true]
        constructor
        · intro h
          split at h <;> cases h
        · intro h
          rcases h with h | h
          · exact absurd h h1
          · simp at h
  · intro ls₁ ls₂ fl h
    simp only [processLines, List.filterMap_append, List.filterMap_cons_none h]
  · intro l r hk hsql
    simp only [keepLine, hsql, if_true] at hk
    split at hk
    · exact (Option.some.inj hk).symm
    · cases hk

/-- C3 witness: the drop-invariance conjunct applied to the example filler
line. -/
theorem c3_witness :
    processLines ([] ++ ("Explanation: foo").data :: [("SELECT 1").data]) =
      processLines ([] ++ [("SELECT 1").data]) :=
  c3_line_filtering.2.1 [] [("SELECT 1").data] (("Explanation: foo").data) (by decide)

/-- C4: whenever `clean_sql_query` returns successfully, the returned
string contains no semicolon (the join is followed by
`.replace(";", "")` and a final strip). -/
theorem c4_no_semicolon :
    ∀ (s r : List Char), clean_sql_query s = Except.ok r → ';' ∉ r := by
  intro s r h
  have hr : r = joinCleanLines (extractFenced s) := by
    simp only [clean_sql_query] at h
    split at h
    · exact (Except.ok.inj h).symm
    · cases h
  subst hr
  intro hmem
  simp only [joinCleanLines, processLines] at hmem
  exact not_semi_mem_removeSemis _ (mem_pyStrip _ _ hmem)

/-- C4 witness: a successful call on `"SELECT 1;"`. -/
theorem c4_witness : ';' ∉ ("SELECT 1").data :=
  c4_no_semicolon (("SELECT 1;").data) (("SELECT 1").data) rfl

/-- C5 counterexample: a user_context mapping IS supplied (the empty
mapping), yet the built prompt contains no identity-substitution
instruction — refuting "… exactly when a user_context mapping is
supplied". -/
theorem c5_counterexample :
    (some ([] : Ctx)).isSome = true ∧
    containsSub instrMarkerL
      (systemPrompt "Show my submissions" (some ([] : Ctx))).data = false := by
  refine ⟨rfl, ?_⟩
  rw [systemPrompt_falsy "Show my submissions" (some ([] : Ctx)) rfl]
  exact noMarker_q0

/-- C5 (amended): when a nonempty user_context mapping with `user_id` equal
to `42` is supplied, the built prompt contains the literal substring
`users.user_id = 42` (the identity-substitution instruction with the
literal user id, no placeholder); when user_context is absent — or the
supplied mapping is empty — the context block contributes zero bytes, and
(for the example query) no identity-substitution instruction appears. -/
theorem c5_identity_substitution :
    (∀ (q : String) (l : Ctx), l ≠ [] → List.lookup "user_id" l = some "42" →
      containsSub (("users.user_id = 42").data) (systemPrompt q (some l)).data = true) ∧
    contextBlock none = "" ∧ contextBlock (some ([] : Ctx)) = "" ∧
    containsSub instrMarkerL (systemPrompt "Show my submissions" none).data = false := by
  refine ⟨?_, rfl, rfl, noMarker_q0⟩
  intro q l hne hlook
  have hget : ctxGet l "user_id" = "42" := by simp [ctxGet, hlook]
  have hempty : List.isEmpty l = false := by
    cases l with
    | nil => exact absurd rfl hne
    | cons a t => rfl
  simp only [systemPrompt, contextBlock, hempty, Bool.false_eq_true, if_false,
    renderContextBlock, hget, data_append, List.append_assoc]
  apply cs_append_left
  apply cs_append_left
  apply cs_append_left
  apply cs_append_left
  apply cs_append_left
  apply cs_append_left
  apply cs_append_left
  apply cs_append_left
  apply cs_append_left
  apply cs_append_left
  apply cs_append_left
  apply cs_append_left
  apply cs_append_left
  apply cs_append_left
  exact cs_of_ps _ _
    (ps_concat2 (("users.user_id = " : String).data) (("42" : String).data) _)

/-- C5 witness: the containment conjunct applied to a concrete context. -/
theorem c5_witness :
    containsSub (("users.user_id = 42").data)
      (systemPrompt "Show my submissions" (some [("user_id", "42")])).data = true :=
  c5_identity_substitution.1 "Show my submissions" [("user_id", "42")]
    (by decide) (by decide)

/-- C6 counterexample: the built prompt does not literally end with the cue
token `SQL Query:` — its final character is the newline that follows the
cue line. -/
theorem c6_counterexample :
    List.isSuffixOf (("SQL Query:").data) (systemPrompt "q" none).data = false := by
  cases hb : List.isSuffixOf (("SQL Query:").data) (systemPrompt "q" none).data with
  | false => rfl
  | true =>
    exfalso
    obtain ⟨t, ht⟩ := List.isSuffixOf_iff_suffix.mp hb
    have h1 : (systemPrompt "q" none).data.getLast? = some ':' := by
      rw [← ht, getLast?_append_right _ _ (by decide)]
      decide
    have h2 := prompt_getLast "q" none
    rw [h1] at h2
    simp at h2

/-- C6 (amended): the built prompt is the concatenation, in fixed order, of
the role/persona instruction, the domain/workflow narrative, the enumerated
query rule sections, the optional context block, the full Schema Catalog
text, the full Example Bank text, and the task framing that re-embeds the
natural-language query; it ends with the cue line `SQL Query:` followed by
a single terminating newline. -/
theorem c6_prompt_order :
    ∀ (q : String) (uc : Option Ctx),
      systemPrompt q uc =
        promptRole ++ promptNarrative ++ promptRules ++ contextBlock uc ++
        promptSchemaHdr ++ TABLE_SCHEMAS ++ promptExamplesHdr ++ SAMPLE_QUERIES ++
        promptTaskPre ++ q ++ promptTail ∧
      ∃ t : List Char, (systemPrompt q uc).data = t ++ ("SQL Query:\n").data := by
  intro q uc
  refine ⟨rfl, ?_⟩
  refine ⟨(promptRole ++ promptNarrative ++ promptRules ++ contextBlock uc ++
    promptSchemaHdr ++ TABLE_SCHEMAS ++ promptExamplesHdr ++ SAMPLE_QUERIES ++
    promptTaskPre ++ q).data ++ ("\n\n" : String).data, ?_⟩
  have htail : promptTail.data = ("\n\n" : String).data ++ ("SQL Query:\n").data := by
    decide
  rw [systemPrompt, data_append, htail, List.append_assoc]

/-- C7: the prompt builder is pure and deterministic — two calls with
identical natural-language query and identical user_context build
byte-identical prompt strings (the embedding is a total function of
exactly these inputs and the static module text). -/
theorem c7_prompt_deterministic :
    ∀ (q₁ q₂ : String) (u₁ u₂ : Option Ctx), q₁ = q₂ → u₁ = u₂ →
      systemPrompt q₁ u₁ = systemPrompt q₂ u₂ := by
  intro q₁ q₂ u₁ u₂ hq hu
  rw [hq, hu]

/-- C7 witness. -/
theorem c7_witness :
    systemPrompt "Show my submissions" none = systemPrompt "Show my submissions" none :=
  c7_prompt_deterministic _ _ _ _ rfl rfl

/-- C8 counterexample: with every required variable set except `DB2_PORT`,
`Config.validate` succeeds — the code falls back to the default `"30756"`
instead of failing — contradicting "fails … and no default is assumed for
any of these required values". -/
theorem c8_counterexample :
    getenv [("DB2_USERNAME", "u"), ("DB2_PASSWORD", "p"), ("DB2_HOSTNAME", "h"),
        ("DB2_DATABASE", "d"), ("WATSONX_URL", "w"), ("WATSONX_API_KEY", "k"),
        ("WATSONX_PROJECT_ID", "pr"), ("WATSONX_MODEL_ID", "m")] "DB2_PORT" = none ∧
    Config_validate [("DB2_USERNAME", "u"), ("DB2_PASSWORD", "p"), ("DB2_HOSTNAME", "h"),
        ("DB2_DATABASE", "d"), ("WATSONX_URL", "w"), ("WATSONX_API_KEY", "k"),
        ("WATSONX_PROJECT_ID", "pr"), ("WATSONX_MODEL_ID", "m")] = Except.ok true :=
  ⟨rfl, rfl⟩

/-- C8 (amended): `Config.validate` fails with a single error enumerating
every falsy required value at once (each missing name appears in the
message), and succeeds exactly when none is falsy; the seven values without
code defaults (DB2 username/password/hostname and the four Watsonx values)
are falsy whenever their environment variable is absent, while `DB2_PORT`
and `DB2_DATABASE` assume the defaults `"30756"` and `"bludb"` when absent,
so their mere absence never fails validation. -/
theorem c8_validate_enumerates :
    (∀ (env : Env) (v : String), v ∈ requiredDbVars ++ requiredWatsonxVars →
      truthyOpt (configAttr env v) = false →
      Config_validate env = Except.error (validateMsg env) ∧
      containsSub v.data (validateMsg env).data = true) ∧
    (∀ env : Env, Config_validate env = Except.ok true ↔ missingVars env = []) ∧
    (∀ (env : Env) (v : String),
      v ∈ ["DB2_USERNAME", "DB2_PASSWORD", "DB2_HOSTNAME", "WATSONX_URL",
           "WATSONX_API_KEY", "WATSONX_PROJECT_ID", "WATSONX_MODEL_ID"] →
      getenv env v = none → truthyOpt (configAttr env v) = false) ∧
    (∀ env : Env, getenv env "DB2_PORT" = none →
      configAttr env "DB2_PORT" = some "30756") ∧
    (∀ env : Env, getenv env "DB2_DATABASE" = none →
      configAttr env "DB2_DATABASE" = some "bludb") := by
  refine ⟨?_, ?_, ?_, ?_, ?_⟩
  · intro env v hv hfalsy
    have hmem : v ∈ missingVars env :=
      List.mem_filter.mpr ⟨hv, by simp [hfalsy]⟩
    have hne : missingVars env ≠ [] := by
      intro hnil
      rw [hnil] at hmem
      cases hmem
    constructor
    · simp [Config_validate, hne]
    · simp only [validateMsg, data_append, List.append_assoc]
      apply cs_append_left
      exact cs_append_right _ _ _ (joinComma_contains v _ hmem)
  · intro env
    by_cases hm : missingVars env = [] <;> simp [Config_validate, hm]
  · intro env v hv h
    fin_cases hv <;> simp [configAttr, h, truthyOpt]
  · intro env h
    simp [configAttr, h]
  · intro env h
    simp [configAttr, h]

/-- C8 witness: the enumeration conjunct applied to the empty environment
and the username variable. -/
theorem c8_witness :
    Config_validate [] = Except.error (validateMsg []) ∧
    containsSub ("DB2_USERNAME" : String).data (validateMsg []).data = true :=
  c8_validate_enumerates.1 [] "DB2_USERNAME" (by decide) (by decide)

/-- C9: for a request whose query strips to the empty string, the inner `HTTPException(400, "Missing user query")` is caught by the blanket
`except Exception` clause and re-raised as status 500 with
`str(e) = "400: Missing user query"`, so the caller observes 500, never
400. -/
theorem c9_blank_query_500 :
    ∀ (raw : String) (gen : String → Except String String)
      (ex : String → Except String Rows) (now : String),
      pyStripS raw = "" →
      process_query raw gen ex now =
        Except.error ⟨500, "400: Missing user query"⟩ := by
  intro raw gen ex now h
  simp only [process_query, process_query_body, h, if_pos]
  rfl

/-- C9 witness: a whitespace-only query. -/
theorem c9_witness :
    process_query "   " (fun _ => Except.error "") (fun _ => Except.error "") "" =
      Except.error ⟨500, "400: Missing user query"⟩ :=
  c9_blank_query_500 "   " (fun _ => Except.error "") (fun _ => Except.error "") "" rfl

/-- C10: `generate_sql_query` treats a supplied-but-empty user_context
mapping exactly like an absent one — for every falsy user_context (`None`
or the empty mapping) the context block is the empty string, the built
prompt equals the no-context prompt byte for byte, and (for the example
query) no identity-substitution instruction appears. -/
theorem c10_falsy_context :
    ∀ (q : String) (uc : Option Ctx), truthyCtx uc = false →
      contextBlock uc = "" ∧ systemPrompt q uc = systemPrompt q none ∧
      containsSub instrMarkerL (systemPrompt "Show my submissions" uc).data = false := by
  intro q uc h
  refine ⟨contextBlock_falsy uc h, systemPrompt_falsy q uc h, ?_⟩
  rw [systemPrompt_falsy _ _ h]
  exact noMarker_q0

/-- C10 witness: the supplied-but-empty mapping. -/
theorem c10_witness :
    contextBlock (some ([] : Ctx)) = "" ∧
    systemPrompt "Show my submissions" (some ([] : Ctx)) =
      systemPrompt "Show my submissions" none ∧
    containsSub instrMarkerL
      (systemPrompt "Show my submissions" (some ([] : Ctx))).data = false :=
  c10_falsy_context "Show my submissions" (some []) rfl

end SkillsChat
